import Mathlib

/-!
Verification development for the HorizonOps intelligent-dashboard frontend.

The definitions below are a shallow embedding of the decision logic of the
repository: the Command Console tick loop (reading generation, anomaly
escalation, log append, recalibration), the Kernel Logs bounded log, the
Live Telemetry rolling buffer and kurtosis indicator, the alert-threshold
configuration, and the prediction request adapter with its fallback
handling.  Numeric sensor values are modelled as rationals; the random
draws made by the code on each tick are passed in explicitly as inputs.
-/

/-- Log severity used by the Command Console view (`LogEntry.type` in
`CommandConsole`). -/
inductive LogType
  | info
  | warning
  | critical
deriving DecidableEq, Repr

/-- A Command Console log entry (`LogEntry` in `CommandConsole`). -/
structure LogEntry where
  id : String
  timestamp : String
  message : String
  type : LogType
deriving DecidableEq, Repr

/-- One point of the console telemetry buffer (`TelemetryPoint` in
`CommandConsole`). -/
structure TelemetryPoint where
  time : String
  vibration : ℚ
  temp : ℚ
  power : ℚ
deriving DecidableEq, Repr

/-- The tri-state system status of the single-asset console view
(`useState` of `systemStatus` admits the literals `nominal`, `degraded`
and `critical`). -/
inductive SystemStatus
  | nominal
  | degraded
  | critical
deriving DecidableEq, Repr

/-- The mutable state of the `CommandConsole` component: the rolling
telemetry buffer, the bounded log, and the system status.  The
presentation-only pieces of component state (`isAiAnalyzing`,
`aiInsight`) are handled separately by `runAiAnalysis`. -/
structure ConsoleState where
  telemetry : List TelemetryPoint
  logs : List LogEntry
  systemStatus : SystemStatus
deriving DecidableEq, Repr

/-- Vibration warning threshold: `PARAMETER_SECTIONS` alert section,
parameter `vib_warn`, value 30 mm/s. -/
def vibWarnThreshold : ℚ := 30

/-- Vibration critical threshold: `PARAMETER_SECTIONS` alert section,
parameter `vib_crit`, value 50 mm/s. -/
def vibCritThreshold : ℚ := 50

/-- The per-tick inputs of the console interval callback that the code
obtains from the environment: the formatted clock strings and the four
`Math.random()` draws.  Each random draw lies in `[0, 1)`. -/
structure TickInput where
  time : String
  anomalyRand : ℚ
  vibRand : ℚ
  tempRand : ℚ
  powerRand : ℚ
  entryId : String
  entryTime : String
deriving DecidableEq, Repr

/-- `const isAnomaly = Math.random() > 0.98` in the console tick. -/
def isAnomalyInput (inp : TickInput) : Bool :=
  decide ((98 : ℚ) / 100 < inp.anomalyRand)

/-- Anomalous vibration sample: `55 + Math.random() * 25`. -/
def anomalousVibration (r : ℚ) : ℚ := 55 + r * 25

/-- Baseline vibration sample: `20 + Math.random() * 4`. -/
def baselineVibration (r : ℚ) : ℚ := 20 + r * 4

/-- The vibration value generated by one tick:
`isAnomaly ? 55 + Math.random() * 25 : 20 + Math.random() * 4`. -/
def genVibration (inp : TickInput) : ℚ :=
  if isAnomalyInput inp = true then anomalousVibration inp.vibRand
  else baselineVibration inp.vibRand

/-- Floor of a rational as an integer, computed from the normalised
numerator and denominator. -/
def floorQ (q : ℚ) : Int := Int.ediv q.num q.den

/-- Round to the nearest tenth, scaled by ten. -/
def roundTenths (q : ℚ) : Int := floorQ (q * 10 + 1 / 2)

/-- Model of the JavaScript `Number.prototype.toFixed(1)` rendering used
in the anomaly log message, for the nonnegative vibration values produced
by the generator. -/
def toFixed1 (q : ℚ) : String :=
  toString (Int.ediv (roundTenths q) 10) ++ "." ++ toString (Int.emod (roundTenths q) 10)

/-- The anomaly log message template of the console tick:
the literal text with the vibration value rendered to one decimal place
spliced into it. -/
def anomalyMessage (v : ℚ) : String :=
  "Anomaly: Spindle vibration threshold exceeded (" ++ toFixed1 v ++ "Hz)"

/-- The log entry built by `addLog` from its arguments and the clock and
random id. -/
def mkConsoleEntry (id ts msg : String) (tpe : LogType) : LogEntry :=
  { id := id, timestamp := ts, message := msg, type := tpe }

/-- `addLog` of `CommandConsole`: prepend the new entry, then
`.slice(0, 15)`. -/
def addLog (tpe : LogType) (msg : String) (id ts : String)
    (logs : List LogEntry) : List LogEntry :=
  (mkConsoleEntry id ts msg tpe :: logs).take 15

/-- The console rolling-buffer update `[...prev.slice(1), newPoint]`:
drop the oldest point, append the new one. -/
def consolePush (l : List TelemetryPoint) (p : TelemetryPoint) : List TelemetryPoint :=
  l.drop 1 ++ [p]

/-- The fresh telemetry point built by a tick.  The temperature drifts
from the last buffered point (`last.temp + (Math.random() - 0.45)`), the
power stays near baseline (`12 + Math.random() * 0.5`). -/
def newPointOf (inp : TickInput) (s : ConsoleState) : TelemetryPoint :=
  { time := inp.time
  , vibration := genVibration inp
  , temp := (s.telemetry.getLast?.getD ⟨"", 0, 0, 0⟩).temp + (inp.tempRand - 45 / 100)
  , power := 12 + inp.powerRand * (1 / 2) }

/-- One tick of the console interval: generate the new point; if it is
anomalous while the status is `nominal`, append one critical log entry
carrying the vibration value and escalate to `degraded`; in every case
slide the rolling buffer. -/
def tick (inp : TickInput) (s : ConsoleState) : ConsoleState :=
  if isAnomalyInput inp = true ∧ s.systemStatus = SystemStatus.nominal then
    { telemetry := consolePush s.telemetry (newPointOf inp s)
    , logs := addLog LogType.critical (anomalyMessage (genVibration inp))
        inp.entryId inp.entryTime s.logs
    , systemStatus := SystemStatus.degraded }
  else
    { telemetry := consolePush s.telemetry (newPointOf inp s)
    , logs := s.logs
    , systemStatus := s.systemStatus }

/-- The Recalibrate Baseline button: `onClick={() => setSystemStatus('nominal')}`. -/
def recalibrate (s : ConsoleState) : ConsoleState :=
  { s with systemStatus := SystemStatus.nominal }

/-- A run of consecutive ticks. -/
def tickRun (inps : List TickInput) (s : ConsoleState) : ConsoleState :=
  inps.foldl (fun t i => tick i t) s

/-- The operations the console performs on its state: the interval tick
and the explicit operator recalibration. -/
inductive ConsoleOp
  | tick (inp : TickInput)
  | recalibrate

/-- Apply one console operation. -/
def applyOp (s : ConsoleState) : ConsoleOp → ConsoleState
  | ConsoleOp.tick inp => tick inp s
  | ConsoleOp.recalibrate => recalibrate s

/-- Run a sequence of console operations. -/
def runOps (s : ConsoleState) (ops : List ConsoleOp) : ConsoleState :=
  ops.foldl applyOp s

/-- The initial component state: an initial telemetry buffer (the
`useState` initialiser builds 40 synthetic points), an empty log, and the
status `nominal`. -/
def initConsoleState (pts : List TelemetryPoint) : ConsoleState :=
  { telemetry := pts, logs := [], systemStatus := SystemStatus.nominal }

/-- Severity levels of the broader Kernel Logs view. -/
inductive KernelLogLevel
  | debug
  | info
  | warning
  | error
  | critical
deriving DecidableEq, Repr

/-- A Kernel Logs entry.  The optional untyped `metadata` record of the
source is presentation-only and is not carried in the model. -/
structure KernelLogEntry where
  id : String
  timestamp : String
  level : KernelLogLevel
  source : String
  message : String
deriving DecidableEq, Repr

/-- The Kernel Logs append `setLogs(prev => [newLog, ...prev].slice(0, 100))`. -/
def kernelAppend (e : KernelLogEntry) (l : List KernelLogEntry) : List KernelLogEntry :=
  (e :: l).take 100

/-- The Kernel Logs clear button `onClick={() => setLogs([])}`. -/
def clearKernelLogs (_l : List KernelLogEntry) : List KernelLogEntry := []

/-- A Live Telemetry reading (`TelemetryReading` in `LiveTelemetry`). -/
structure TelemetryReading where
  timestamp : String
  vibration_rms : ℚ
  vibration_peak : ℚ
  vibration_kurtosis : ℚ
  temperature : ℚ
  power_consumption : ℚ
  anomaly_flag : Bool
deriving DecidableEq, Repr

/-- The Live Telemetry chart-buffer update in `fetchLatest`:
`[...prev.slice(-49), newPoint]` keeps the last 49 readings and appends
the new one. -/
def telePush (l : List TelemetryReading) (p : TelemetryReading) : List TelemetryReading :=
  l.drop (l.length - 49) ++ [p]

/-- The kurtosis indicator of `LiveTelemetry`: the reading is shown as
ELEVATED exactly when `latestReading.vibration_kurtosis > 4`. -/
def kurtosisElevated (k : ℚ) : Bool := decide (4 < k)

/-- The fields of the prediction-service response that `runAiAnalysis`
reads.  Each is optional, modelling a malformed or incomplete JSON
payload in which the field is absent. -/
structure PredictResponse where
  risk_level : Option String
  risk_score : Option ℚ
  explanation_nl : Option String
  recommended_action : Option String
deriving DecidableEq, Repr

/-- JavaScript template interpolation of a possibly-undefined string. -/
def renderStrOpt (o : Option String) : String := o.getD "undefined"

/-- Display of a numeric field for the insight string. -/
def ratDisplay (q : ℚ) : String :=
  toString q.num ++ (if q.den = 1 then "" else "/" ++ toString q.den)

/-- JavaScript template interpolation of a possibly-undefined number. -/
def renderNumOpt (o : Option ℚ) : String :=
  match o with
  | none => "undefined"
  | some q => ratDisplay q

/-- The fallback `data.explanation?.natural_language || data.recommended_action`:
optional chaining followed by JavaScript disjunction, under which the
empty string is falsy. -/
def jsOr (a b : Option String) : Option String :=
  match a with
  | some s => if s = "" then b else some s
  | none => b

/-- Building the insight string from a parsed response.  Evaluating
`data.risk_level.toUpperCase()` on an absent `risk_level` throws, which
this model returns as `none`; every other absent field is interpolated as
`undefined` without throwing. -/
def mkInsight (r : PredictResponse) : Option String :=
  match r.risk_level with
  | none => none
  | some lvl =>
      some ("Risk Level: " ++ lvl.toUpper ++ " (" ++ renderNumOpt r.risk_score
        ++ "%). " ++ renderStrOpt (jsOr r.explanation_nl r.recommended_action))

/-- The fixed fallback text set by the `catch` branch of `runAiAnalysis`. -/
def fallbackInsight : String := "AI Uplink Failed. Switching to manual override."

/-- The outcome of one `runAiAnalysis` call as a function of the service
outcome: `none` models a network or service failure of the single `fetch`;
`some r` models a JSON payload with the fields of `r`.  Both a failed
request and a throwing field access land in the same `catch`, which
substitutes the fixed fallback text; the call always resolves to an
insight string. -/
def runAiAnalysis (resp : Option PredictResponse) : String :=
  match resp with
  | none => fallbackInsight
  | some r =>
      match mkInsight r with
      | some s => s
      | none => fallbackInsight

/-- The last `n` elements of a list. -/
def lastN (n : ℕ) (l : List α) : List α := l.drop (l.length - n)

/-- Concrete telemetry point used by the witness evaluations. -/
def samplePoint : TelemetryPoint := { time := "0:00", vibration := 20, temp := 42, power := 12 }

/-- Concrete console state in status nominal. -/
def sampleNominalState : ConsoleState :=
  { telemetry := [samplePoint], logs := [], systemStatus := SystemStatus.nominal }

/-- Concrete console state in status degraded. -/
def sampleDegradedState : ConsoleState :=
  { telemetry := [samplePoint], logs := [], systemStatus := SystemStatus.degraded }

/-- Concrete anomalous tick input: the anomaly draw 0.99 exceeds 0.98. -/
def sampleAnomTick : TickInput :=
  { time := "t1", anomalyRand := 99 / 100, vibRand := 1 / 2, tempRand := 1 / 2
  , powerRand := 1 / 2, entryId := "id1", entryTime := "09:00" }

/-- Concrete normal tick input: the anomaly draw 0 stays below 0.98. -/
def sampleNormalTick : TickInput :=
  { time := "t2", anomalyRand := 0, vibRand := 1 / 2, tempRand := 1 / 2
  , powerRand := 1 / 2, entryId := "id2", entryTime := "09:01" }

/-- The concrete anomalous tick input is classified anomalous: its
anomaly draw 0.99 exceeds the 0.98 cut. -/
theorem sampleAnomTick_isAnomaly : isAnomalyInput sampleAnomTick = true := by
  rw [isAnomalyInput, decide_eq_true_eq]
  norm_num [sampleAnomTick]

/-- The status after one tick: it escalates to degraded exactly when the
reading is anomalous while the status is nominal, and is unchanged
otherwise. -/
theorem tick_systemStatus (inp : TickInput) (s : ConsoleState) :
    (tick inp s).systemStatus =
      if isAnomalyInput inp = true ∧ s.systemStatus = SystemStatus.nominal then
        SystemStatus.degraded
      else s.systemStatus := by
  rw [tick]
  split <;> simp_all

/-- Unfolding one tick of a tick run. -/
theorem tickRun_cons (i : TickInput) (is : List TickInput) (s : ConsoleState) :
    tickRun (i :: is) s = tickRun is (tick i s) := rfl

/-- Claim C1: once the console status is degraded, no sequence of
tick-generated readings returns it to nominal; the explicit recalibrate
action is the only recovery and it sets the status to nominal
unconditionally, from any state. -/
theorem consoleDegradedPersists (s : ConsoleState) (inps : List TickInput) :
    (s.systemStatus = SystemStatus.degraded →
      (tickRun inps s).systemStatus = SystemStatus.degraded)
    ∧ ∀ t : ConsoleState, (recalibrate t).systemStatus = SystemStatus.nominal := by
  constructor
  · induction inps generalizing s with
    | nil => intro h; exact h
    | cons i is ih =>
        intro h
        rw [tickRun_cons]
        apply ih
        rw [tick_systemStatus]
        split
        · rfl
        · exact h
  · intro t; rfl

/-- Witness for C1 at a concrete degraded state and a two-tick run. -/
theorem consoleDegradedPersists_witness :
    sampleDegradedState.systemStatus = SystemStatus.degraded ∧
    (tickRun [sampleAnomTick, sampleNormalTick] sampleDegradedState).systemStatus =
      SystemStatus.degraded :=
  ⟨rfl, (consoleDegradedPersists sampleDegradedState [sampleAnomTick, sampleNormalTick]).1 rfl⟩

/-- Claim C2: an anomalous reading arriving while the status is nominal
escalates the status to degraded and appends exactly one critical log
entry whose message carries the generated vibration value rendered to one
decimal place; an anomalous reading arriving while the status is already
degraded changes neither the status nor the log. -/
theorem anomalyTickEscalation (inp : TickInput) (s : ConsoleState) :
    (isAnomalyInput inp = true → s.systemStatus = SystemStatus.nominal →
      (tick inp s).systemStatus = SystemStatus.degraded ∧
      (tick inp s).logs =
        mkConsoleEntry inp.entryId inp.entryTime
          (anomalyMessage (genVibration inp)) LogType.critical :: s.logs.take 14 ∧
      (tick inp s).logs.length = min 15 (s.logs.length + 1) ∧
      anomalyMessage (genVibration inp) =
        "Anomaly: Spindle vibration threshold exceeded ("
          ++ toFixed1 (genVibration inp) ++ "Hz)")
    ∧ (isAnomalyInput inp = true → s.systemStatus = SystemStatus.degraded →
      (tick inp s).systemStatus = SystemStatus.degraded ∧ (tick inp s).logs = s.logs) := by
  constructor
  · intro h1 h2
    have hc : isAnomalyInput inp = true ∧ s.systemStatus = SystemStatus.nominal := ⟨h1, h2⟩
    rw [tick, if_pos hc]
    refine ⟨rfl, ?_, ?_, rfl⟩
    · simp [addLog, List.take_succ_cons]
    · simp only [addLog, List.length_take, List.length_cons]
  · intro h1 h2
    have hc : ¬ (isAnomalyInput inp = true ∧ s.systemStatus = SystemStatus.nominal) := by
      intro hcon
      rw [h2] at hcon
      exact absurd hcon.2 (by simp)
    rw [tick, if_neg hc]
    exact ⟨h2, rfl⟩

/-- Witness for C2 at a concrete anomalous tick from a nominal state. -/
theorem anomalyTickEscalation_witness :
    isAnomalyInput sampleAnomTick = true ∧
    sampleNominalState.systemStatus = SystemStatus.nominal ∧
    (tick sampleAnomTick sampleNominalState).systemStatus = SystemStatus.degraded :=
  ⟨sampleAnomTick_isAnomaly, rfl,
    ((anomalyTickEscalation sampleAnomTick sampleNominalState).1
      sampleAnomTick_isAnomaly rfl).1⟩

/-- Applying any console operation preserves the invariant that the
status is nominal or degraded. -/
theorem applyOp_status_invariant (s : ConsoleState) (op : ConsoleOp)
    (h : s.systemStatus = SystemStatus.nominal ∨ s.systemStatus = SystemStatus.degraded) :
    (applyOp s op).systemStatus = SystemStatus.nominal ∨
    (applyOp s op).systemStatus = SystemStatus.degraded := by
  cases op with
  | tick inp =>
      rw [applyOp, tick_systemStatus]
      split
      · exact Or.inr rfl
      · exact h
  | recalibrate => exact Or.inl rfl

/-- Claim C9: starting from a nominal state, no sequence of console
operations reaches the status critical — the reachable statuses are
exactly nominal and degraded, and both are realised by concrete runs. -/
theorem criticalUnreachable (s0 : ConsoleState) (ops : List ConsoleOp) :
    (s0.systemStatus = SystemStatus.nominal →
      (runOps s0 ops).systemStatus = SystemStatus.nominal ∨
      (runOps s0 ops).systemStatus = SystemStatus.degraded)
    ∧ (runOps (initConsoleState [samplePoint]) []).systemStatus = SystemStatus.nominal
    ∧ (runOps (initConsoleState [samplePoint])
        [ConsoleOp.tick sampleAnomTick]).systemStatus = SystemStatus.degraded := by
  refine ⟨?_, rfl, ?_⟩
  swap
  · show (applyOp (initConsoleState [samplePoint])
      (ConsoleOp.tick sampleAnomTick)).systemStatus = SystemStatus.degraded
    rw [applyOp, tick_systemStatus, if_pos ⟨sampleAnomTick_isAnomaly, rfl⟩]
  intro h0
  have : s0.systemStatus = SystemStatus.nominal ∨ s0.systemStatus = SystemStatus.degraded :=
    Or.inl h0
  clear h0
  induction ops generalizing s0 with
  | nil => exact this
  | cons op ops ih =>
      have hstep := applyOp_status_invariant s0 op this
      exact ih (applyOp s0 op) hstep

/-- Witness for C9 at the concrete initial state. -/
theorem criticalUnreachable_witness :
    (initConsoleState [samplePoint]).systemStatus = SystemStatus.nominal ∧
    ((runOps (initConsoleState [samplePoint]) [ConsoleOp.recalibrate]).systemStatus =
        SystemStatus.nominal ∨
      (runOps (initConsoleState [samplePoint]) [ConsoleOp.recalibrate]).systemStatus =
        SystemStatus.degraded) :=
  ⟨rfl, (criticalUnreachable (initConsoleState [samplePoint]) [ConsoleOp.recalibrate]).1 rfl⟩

/-- Claim C3: both log appends prepend the new entry and truncate to the
configured maximum (15 for the console, 100 for the Kernel Logs view), so
the log never exceeds that maximum, the newest entry is read first, and
truncation drops exactly the oldest tail entries. -/
theorem logAppendBounded (tpe : LogType) (msg id ts : String) (l : List LogEntry)
    (e : KernelLogEntry) (kl : List KernelLogEntry) :
    addLog tpe msg id ts l = (mkConsoleEntry id ts msg tpe :: l).take 15
    ∧ (addLog tpe msg id ts l).length ≤ 15
    ∧ (addLog tpe msg id ts l).head? = some (mkConsoleEntry id ts msg tpe)
    ∧ mkConsoleEntry id ts msg tpe :: l =
        addLog tpe msg id ts l ++ (mkConsoleEntry id ts msg tpe :: l).drop 15
    ∧ kernelAppend e kl = (e :: kl).take 100
    ∧ (kernelAppend e kl).length ≤ 100
    ∧ (kernelAppend e kl).head? = some e
    ∧ e :: kl = kernelAppend e kl ++ (e :: kl).drop 100 := by
  refine ⟨rfl, ?_, ?_, ?_, rfl, ?_, ?_, ?_⟩
  · simp only [addLog, List.length_take, List.length_cons]
    omega
  · simp [addLog, List.take_succ_cons]
  · exact (List.take_append_drop 15 _).symm
  · simp only [kernelAppend, List.length_take, List.length_cons]
    omega
  · simp [kernelAppend, List.take_succ_cons]
  · exact (List.take_append_drop 100 _).symm

/-- Concrete Kernel Logs entry used in the counterexample and witness. -/
def sampleKernelEntry : KernelLogEntry :=
  { id := "3", timestamp := "t3", level := KernelLogLevel.warning
  , source := "SENSOR-GW", message := "Sensor reading delay detected" }

/-- Counterexample to C7: the Kernel Logs view exposes a clear action
that empties the log, removing an entry from a log that is under
capacity — a removal that is neither head insertion nor oldest-first
capacity eviction. -/
theorem kernelClearRemovesEntries :
    clearKernelLogs [sampleKernelEntry] = []
    ∧ ([sampleKernelEntry] : List KernelLogEntry).length ≤ 100
    ∧ sampleKernelEntry ∈ [sampleKernelEntry]
    ∧ sampleKernelEntry ∉ clearKernelLogs [sampleKernelEntry] := by
  refine ⟨rfl, by norm_num, List.mem_singleton_self _, ?_⟩
  rw [clearKernelLogs]
  exact List.not_mem_nil _

/-- Claim C7 (amended): the log is modified only by the append operation
and by the explicit operator clear action; append prepends the new entry
and truncates to capacity (evicting oldest entries), every retained entry
is either the new entry or a previously inserted entry left unchanged,
and the clear action empties the log. -/
theorem logAppendOnlyAmended (e : KernelLogEntry) (l : List KernelLogEntry)
    (tpe : LogType) (msg id ts : String) (lc : List LogEntry) :
    kernelAppend e l = (e :: l).take 100
    ∧ (∀ x, x ∈ kernelAppend e l → x = e ∨ x ∈ l)
    ∧ clearKernelLogs l = []
    ∧ addLog tpe msg id ts lc = (mkConsoleEntry id ts msg tpe :: lc).take 15
    ∧ (∀ x, x ∈ addLog tpe msg id ts lc → x = mkConsoleEntry id ts msg tpe ∨ x ∈ lc) := by
  refine ⟨rfl, ?_, rfl, rfl, ?_⟩
  · intro x hx
    rw [kernelAppend] at hx
    exact List.mem_cons.mp (List.mem_of_mem_take hx)
  · intro x hx
    rw [addLog] at hx
    exact List.mem_cons.mp (List.mem_of_mem_take hx)

/-- Witness for the amended C7 at a concrete appended entry. -/
theorem logAppendOnlyAmended_witness :
    sampleKernelEntry ∈ kernelAppend sampleKernelEntry []
    ∧ (sampleKernelEntry = sampleKernelEntry ∨
        sampleKernelEntry ∈ ([] : List KernelLogEntry)) :=
  ⟨by rw [kernelAppend]; exact List.mem_singleton_self _,
    (logAppendOnlyAmended sampleKernelEntry [] LogType.info "m" "i" "t" []).2.1
      sampleKernelEntry (by rw [kernelAppend]; exact List.mem_singleton_self _)⟩

/-- Counterexample to C8: a vibration kurtosis of exactly 4.0 is not
shown as elevated — the indicator uses a strict comparison, so the
boundary value falls in the lower band, not the higher-severity one. -/
theorem kurtosisBoundaryNotElevated : kurtosisElevated 4 = false := by
  rw [kurtosisElevated, decide_eq_false_iff_not]
  exact lt_irrefl 4

/-- Claim C8 (amended): the kurtosis classification is a pure
deterministic function of the input value; a value is classified elevated
exactly when it is strictly greater than 4.0, so the boundary value 4.0
itself is classified as not elevated. -/
theorem kurtosisStrictBoundary (k : ℚ) :
    (kurtosisElevated k = true ↔ 4 < k)
    ∧ (k ≤ 4 → kurtosisElevated k = false)
    ∧ kurtosisElevated 4 = false := by
  refine ⟨?_, ?_, ?_⟩
  · rw [kurtosisElevated]
    exact decide_eq_true_iff
  · intro h
    rw [kurtosisElevated, decide_eq_false_iff_not]
    exact not_lt.mpr h
  · rw [kurtosisElevated, decide_eq_false_iff_not]
    exact lt_irrefl 4

/-- Witness for the amended C8 at the boundary value. -/
theorem kurtosisStrictBoundary_witness :
    (4 : ℚ) ≤ 4 ∧ kurtosisElevated 4 = false :=
  ⟨le_refl 4, (kurtosisStrictBoundary 4).2.1 (le_refl 4)⟩

/-- A run of console buffer pushes starting from a nonempty buffer keeps
its length and retains exactly the suffix obtained by dropping one old
element per push. -/
theorem consolePushFoldl (ps : List TelemetryPoint) :
    ∀ l0 : List TelemetryPoint, 0 < l0.length →
      List.foldl consolePush l0 ps = (l0 ++ ps).drop ps.length ∧
      (List.foldl consolePush l0 ps).length = l0.length := by
  induction ps with
  | nil =>
      intro l0 _
      simp
  | cons p ps ih =>
      intro l0 h
      obtain ⟨a, t, rfl⟩ : ∃ a t, l0 = a :: t := by
        cases l0 with
        | nil => simp at h
        | cons a t => exact ⟨a, t, rfl⟩
      have hlen : 0 < (consolePush (a :: t) p).length := by
        simp [consolePush]
      have hstep := ih (consolePush (a :: t) p) hlen
      constructor
      · rw [List.foldl_cons, hstep.1]
        simp only [consolePush, List.drop_succ_cons, List.drop_zero, List.length_cons,
          List.cons_append, List.append_assoc, List.singleton_append, List.nil_append]
      · rw [List.foldl_cons, hstep.2]
        simp [consolePush]

/-- The length of the last-n suffix is at most n. -/
theorem lastN_length_le (n : ℕ) (l : List α) : (lastN n l).length ≤ n := by
  simp only [lastN, List.length_drop]
  omega

/-- Prepending to a list that already holds at least n elements does not
change its last-n suffix. -/
theorem lastN_cons_of_le (n : ℕ) (a : α) (l : List α) (h : n ≤ l.length) :
    lastN n (a :: l) = lastN n l := by
  have hn : (a :: l).length - n = (l.length - n) + 1 := by
    simp only [List.length_cons]
    omega
  simp only [lastN, hn, List.drop_succ_cons]

/-- One live-telemetry push keeps exactly the last 50 readings of the
extended stream. -/
theorem telePush_lastN (l : List TelemetryReading) (p : TelemetryReading) :
    telePush l p = lastN 50 (l ++ [p]) := by
  rw [telePush, lastN, List.drop_append_eq_append_drop]
  have h1 : (l ++ [p]).length - 50 = l.length - 49 := by
    simp only [List.length_append, List.length_singleton]
    omega
  have h2 : l.length - 49 - l.length = 0 := by omega
  rw [h1, h2]
  rfl

/-- A run of live-telemetry pushes starting from a buffer within capacity
retains exactly the last 50 elements of the whole stream. -/
theorem telePushFoldl (rs : List TelemetryReading) :
    ∀ l0 : List TelemetryReading, l0.length ≤ 50 →
      List.foldl telePush l0 rs = lastN 50 (l0 ++ rs) := by
  induction rs with
  | nil =>
      intro l0 h
      have h0 : l0.length - 50 = 0 := by omega
      simp [lastN, h0]
  | cons p rs ih =>
      intro l0 h
      rw [List.foldl_cons]
      have hlen : (telePush l0 p).length ≤ 50 := by
        rw [telePush_lastN]
        exact lastN_length_le 50 _
      rw [ih _ hlen, telePush_lastN]
      rcases Nat.lt_or_ge l0.length 50 with hlt | hge
      · have h0 : (l0 ++ [p]).length - 50 = 0 := by
          simp only [List.length_append, List.length_singleton]
          omega
        have hid : lastN 50 (l0 ++ [p]) = l0 ++ [p] := by
          simp only [lastN, h0, List.drop_zero]
        rw [hid, List.append_assoc, List.singleton_append]
      · have h50 : l0.length = 50 := le_antisymm h hge
        cases l0 with
        | nil => simp at h50
        | cons a t =>
            have ht : t.length = 49 := by
              simpa using h50
            have h1 : ((a :: t) ++ [p]).length - 50 = 1 := by
              simp only [List.length_append, List.length_cons, List.length_nil, ht]
            have hid : lastN 50 ((a :: t) ++ [p]) = t ++ [p] := by
              rw [lastN, h1, List.cons_append, List.drop_one, List.tail_cons]
            rw [hid, List.append_assoc, List.singleton_append, List.cons_append]
            exact (lastN_cons_of_le 50 a (t ++ p :: rs) (by simp [ht]; omega)).symm

/-- Claim C4: the console rolling buffer keeps exactly 40 points (its
initialiser builds 40), the live-telemetry buffer never exceeds 50
readings, and after capacity-plus-k readings each buffer retains exactly
the last capacity-many readings in arrival order; the tick updates the
console buffer through exactly this push. -/
theorem rollingBufferCapacity (l0 ps : List TelemetryPoint) (k : ℕ)
    (r0 rs : List TelemetryReading) (j : ℕ) (inp : TickInput) (s : ConsoleState) :
    (l0.length = 40 → ps.length = 40 + k →
      (List.foldl consolePush l0 ps).length = 40 ∧
      List.foldl consolePush l0 ps = ps.drop k)
    ∧ (r0.length ≤ 50 →
      (List.foldl telePush r0 rs).length ≤ 50 ∧
      (rs.length = 50 + j → List.foldl telePush r0 rs = rs.drop j))
    ∧ (tick inp s).telemetry = consolePush s.telemetry (newPointOf inp s) := by
  refine ⟨?_, ?_, ?_⟩
  · intro h40 hps
    have h0 : 0 < l0.length := by omega
    have hmain := consolePushFoldl ps l0 h0
    refine ⟨by rw [hmain.2, h40], ?_⟩
    rw [hmain.1, hps]
    have : 40 + k = l0.length + k := by omega
    rw [this, List.drop_append]
  · intro hr0
    have hmain := telePushFoldl rs r0 hr0
    constructor
    · rw [hmain]
      exact lastN_length_le 50 _
    · intro hrs
      rw [hmain, lastN]
      have hlen : (r0 ++ rs).length - 50 = r0.length + j := by
        simp only [List.length_append, hrs]
        omega
      rw [hlen, List.drop_append]
  · rw [tick]
    split <;> rfl

/-- Witness for C4 at concrete buffers of lengths 1 and 0, with a
41-point push run for the console and a 50-reading run for the
live-telemetry chart. -/
theorem rollingBufferCapacity_witness :
    (List.replicate 40 samplePoint).length = 40 ∧
    (List.replicate 41 samplePoint).length = 40 + 1 ∧
    (List.foldl consolePush (List.replicate 40 samplePoint)
      (List.replicate 41 samplePoint)).length = 40 :=
  ⟨by simp, by simp,
    ((rollingBufferCapacity (List.replicate 40 samplePoint) (List.replicate 41 samplePoint)
      1 [] [] 0 sampleNormalTick sampleNominalState).1 (by simp) (by simp)).1⟩

/-- Claim C5: a failed prediction request resolves to the fixed
deterministic fallback text; on a parsed response the insight string is
returned; the call is total — every service outcome yields one insight
string, so no unhandled failure propagates to the caller, and the single
consumed outcome is never retried. -/
theorem predictionFallbackTotal (resp : Option PredictResponse) :
    fallbackInsight = "AI Uplink Failed. Switching to manual override."
    ∧ runAiAnalysis none = fallbackInsight
    ∧ (resp = none → runAiAnalysis resp = fallbackInsight)
    ∧ (∀ r s, resp = some r → mkInsight r = some s → runAiAnalysis resp = s)
    ∧ ∃ out : String, runAiAnalysis resp = out := by
  refine ⟨rfl, rfl, ?_, ?_, ⟨runAiAnalysis resp, rfl⟩⟩
  · intro h
    rw [h]
    rfl
  · intro r s h1 h2
    rw [h1, runAiAnalysis, h2]

/-- Witness for C5 at the failing service outcome. -/
theorem predictionFallbackTotal_witness :
    (none : Option PredictResponse) = none ∧ runAiAnalysis none = fallbackInsight :=
  ⟨rfl, (predictionFallbackTotal none).2.2.1 rfl⟩

/-- Concrete malformed prediction response: the payload carries a risk
score and a recommended action but no risk_level field. -/
def malformedResp : PredictResponse :=
  { risk_level := none, risk_score := some 42, explanation_nl := none
  , recommended_action := some "Schedule bearing inspection" }

/-- Counterexample to C6: a response lacking risk_level is not rendered
as a distinct no-data placeholder — the thrown field access is caught by
the same handler as a network failure and produces the identical fixed
fallback text, so the two cases are collapsed. -/
theorem malformedCollapsesToFallback :
    malformedResp.risk_level = none
    ∧ runAiAnalysis (some malformedResp) = fallbackInsight
    ∧ runAiAnalysis (some malformedResp) = runAiAnalysis none :=
  ⟨rfl, rfl, rfl⟩

/-- Claim C6 (amended): a response lacking risk_level does not crash the
client — the failing field access is caught — but it is not kept
distinguishable from the unreachable-service case: it yields exactly the
same fixed fallback text as a failed request. -/
theorem missingRiskLevelHandled (r : PredictResponse) :
    r.risk_level = none →
      mkInsight r = none
      ∧ runAiAnalysis (some r) = fallbackInsight
      ∧ runAiAnalysis (some r) = runAiAnalysis none := by
  intro h
  have hm : mkInsight r = none := by
    rw [mkInsight, h]
  exact ⟨hm, by simp [runAiAnalysis, hm], by simp [runAiAnalysis, hm]⟩

/-- Witness for the amended C6 at the concrete malformed response. -/
theorem missingRiskLevelHandled_witness :
    malformedResp.risk_level = none ∧ runAiAnalysis (some malformedResp) = fallbackInsight :=
  ⟨rfl, (missingRiskLevelHandled malformedResp rfl).2.1⟩

/-- Claim C10: for every random draw in the unit interval, the anomalous
vibration sample lies in the band from 55 inclusive to 80 exclusive,
strictly above the critical threshold 50, and is formed additively as 55
plus a scaled offset; the baseline sample lies in the band from 20
inclusive to 24 exclusive, strictly below the warning threshold 30 — so
the anomaly branch and the threshold classification always agree. -/
theorem generatorThresholdSeparation (r : ℚ) :
    0 ≤ r → r < 1 →
      anomalousVibration r = 55 + r * 25
      ∧ 55 ≤ anomalousVibration r
      ∧ anomalousVibration r < 80
      ∧ vibCritThreshold < anomalousVibration r
      ∧ baselineVibration r = 20 + r * 4
      ∧ 20 ≤ baselineVibration r
      ∧ baselineVibration r < 24
      ∧ baselineVibration r < vibWarnThreshold := by
  intro h0 h1
  refine ⟨rfl, ?_, ?_, ?_, rfl, ?_, ?_, ?_⟩
  all_goals
    simp only [anomalousVibration, baselineVibration, vibCritThreshold, vibWarnThreshold]
  all_goals nlinarith

/-- Witness for C10 at the draw one half. -/
theorem generatorThresholdSeparation_witness :
    (0 : ℚ) ≤ 1 / 2 ∧ (1 / 2 : ℚ) < 1
    ∧ vibCritThreshold < anomalousVibration (1 / 2)
    ∧ baselineVibration (1 / 2) < vibWarnThreshold :=
  ⟨by norm_num, by norm_num,
    (generatorThresholdSeparation (1 / 2) (by norm_num) (by norm_num)).2.2.2.1,
    (generatorThresholdSeparation (1 / 2) (by norm_num) (by norm_num)).2.2.2.2.2.2.2⟩
